import Mathlib

/-!
Verification of the particle-simulation repository.

The main variant (src/src/main.c) defines a particle as two float pairs
(displacement, velocity), a continuous-collision boundary stepper
(update_position) and a pairwise impulse resolver (resolve_collision).
Float arithmetic is embedded as exact arithmetic: the stepper, which uses
only field operations and comparisons, is embedded over the rationals; the
resolver, which takes a square root, is embedded over the reals.  Decimal
float literals of the source are read as exact rationals.
-/

/-- Constant RADIUS from src/src/main.c line 14: radius of each particle in pixels. -/
def RADIUS : ℚ := 10

/-- Constant WINDOW_WIDTH from src/src/main.c line 16. -/
def WINDOW_WIDTH : ℚ := 1200

/-- Constant WINDOW_HEIGHT from src/src/main.c line 15. -/
def WINDOW_HEIGHT : ℚ := 800

/-- Constant DAMPENING from src/src/main.c line 12 (0.9f): restitution factor. -/
def DAMPENING : ℚ := 9/10

/-- Constant MAX_ITERATIONS from src/src/main.c line 13: cap on the sub-step loop. -/
def MAX_ITERATIONS : Nat := 5

/-- Constant GRAVITATIONAL_ACCELERATION from src/src/main.c line 11:
9.81f * PIXELS_PER_METER = 9.81 * 100 = 981 (pixels per second squared). -/
def GRAVITATIONAL_ACCELERATION : ℚ := 981

/-- Struct Particle of src/src/main.c lines 23-26, over exact rationals.
Field px is displacement[0], py is displacement[1], vx is velocity[0],
vy is velocity[1]. -/
structure Particle where
  px : ℚ
  py : ℚ
  vx : ℚ
  vy : ℚ
deriving DecidableEq, Repr

/-- One axis of the time-to-impact computation of update_position
(src/src/main.c lines 74-112).  Both the X block (lines 77-93, with
lo = RADIUS and hi = WINDOW_WIDTH - RADIUS) and the Y block (lines 96-112,
with lo = RADIUS and hi = WINDOW_HEIGHT - RADIUS) are instances of this
one computation on (position, velocity).  The value none stands for the
INFINITY sentinel of line 74: no boundary crossing flagged on this axis. -/
def timeToImpact1D (lo hi pos v remaining : ℚ) : Option ℚ :=
  if v > 0 then
    if pos + v * remaining > hi then some ((hi - pos) / v) else none
  else if v < 0 then
    if pos + v * remaining < lo then some ((lo - pos) / v) else none
  else none

/-- The tx computation of update_position (src/src/main.c lines 77-93). -/
def timeToImpactX (p : Particle) (remaining : ℚ) : Option ℚ :=
  timeToImpact1D RADIUS (WINDOW_WIDTH - RADIUS) p.px p.vx remaining

/-- The ty computation of update_position (src/src/main.c lines 96-112). -/
def timeToImpactY (p : Particle) (remaining : ℚ) : Option ℚ :=
  timeToImpact1D RADIUS (WINDOW_HEIGHT - RADIUS) p.py p.vy remaining

/-- The fminf of src/src/main.c line 115, on the extended rationals where
none stands for INFINITY. -/
def fminO : Option ℚ → Option ℚ → Option ℚ
  | none, b => b
  | some x, none => some x
  | some x, some y => some (min x y)

/-- The float comparison tx < ty of src/src/main.c line 130, on the
extended rationals where none stands for INFINITY. -/
def ltO : Option ℚ → Option ℚ → Bool
  | some x, some y => decide (x < y)
  | some _, none => true
  | none, _ => false

/-- One iteration of the sub-step loop body of update_position
(src/src/main.c lines 70-135): compute tx, ty and t = fmin(tx, ty); if
t exceeds the remaining time, advance by the full remaining time and set
it to zero; otherwise advance to the collision time, subtract it from the
remaining time, and reflect (with dampening) the velocity component of the
axis that collided first, x exactly when tx < ty.  Returns the updated
particle and the updated remaining time. -/
def substep (p : Particle) (remaining : ℚ) : Particle × ℚ :=
  let tx := timeToImpactX p remaining
  let ty := timeToImpactY p remaining
  match fminO tx ty with
  | none =>
      ({ p with px := p.px + p.vx * remaining, py := p.py + p.vy * remaining }, 0)
  | some t =>
      if t > remaining then
        ({ p with px := p.px + p.vx * remaining, py := p.py + p.vy * remaining }, 0)
      else
        let q : Particle := { p with px := p.px + p.vx * t, py := p.py + p.vy * t }
        if ltO tx ty then
          ({ q with vx := q.vx * (-DAMPENING) }, remaining - t)
        else
          ({ q with vy := q.vy * (-DAMPENING) }, remaining - t)

/-- The sub-step loop of update_position (src/src/main.c lines 66-136),
as fuel-bounded recursion: the fuel plays the role of the loop counter
bound i < MAX_ITERATIONS, and the guard 0 < remaining is the loop
condition remaining_time > 0. -/
def stepLoop : Nat → Particle → ℚ → Particle
  | 0, p, _ => p
  | Nat.succ n, p, remaining =>
      if 0 < remaining then
        let s := substep p remaining
        stepLoop n s.1 s.2
      else p

/-- Variant of stepLoop that also counts how many loop iterations ran
(how many times the body of src/src/main.c lines 68-135 executed). -/
def stepLoopCount : Nat → Particle → ℚ → Particle × Nat
  | 0, p, _ => (p, 0)
  | Nat.succ n, p, remaining =>
      if 0 < remaining then
        let s := substep p remaining
        let r := stepLoopCount n s.1 s.2
        (r.1, r.2 + 1)
      else (p, 0)

/-- Function update_position of src/src/main.c lines 60-137: apply gravity
to the vertical velocity once, then run the continuous-collision sub-step
loop for up to MAX_ITERATIONS iterations on the remaining time delta_time. -/
def update_position (p : Particle) (delta_time : ℚ) : Particle :=
  stepLoop MAX_ITERATIONS
    { p with vy := p.vy + GRAVITATIONAL_ACCELERATION * delta_time } delta_time

/-- Legal region of the spec on the x axis: RADIUS <= x <= WINDOW_WIDTH - RADIUS. -/
def inBoundsX (x : ℚ) : Prop := RADIUS ≤ x ∧ x ≤ WINDOW_WIDTH - RADIUS

/-- Legal region of the spec on the y axis: RADIUS <= y <= WINDOW_HEIGHT - RADIUS. -/
def inBoundsY (y : ℚ) : Prop := RADIUS ≤ y ∧ y ≤ WINDOW_HEIGHT - RADIUS

/-- Legal region of the spec for a particle position, on both axes. -/
def inBounds (p : Particle) : Prop := inBoundsX p.px ∧ inBoundsY p.py

instance : DecidablePred inBoundsX := fun x => by unfold inBoundsX; infer_instance

instance : DecidablePred inBoundsY := fun y => by unfold inBoundsY; infer_instance

instance : DecidablePred inBounds := fun p => by unfold inBounds; infer_instance

namespace ClampVariant

/-- Constant MIN_XY of the clamping variant (src/unnamed/part_002 line 293). -/
def MIN_XY : ℚ := 0

/-- Constant MAX_XY of the clamping variant (src/unnamed/part_002 line 294). -/
def MAX_XY : ℚ := 800

/-- Constant RADIUS of the clamping variant (src/unnamed/part_002 line 292). -/
def RADIUS : ℚ := 10

/-- Constant GRAVITATIONAL_ACCELERATION of the clamping variant
(src/unnamed/part_002 line 291): 9.81f, read as the exact rational 981/100. -/
def GRAVITATIONAL_ACCELERATION : ℚ := 981/100

/-- Function update_position of the clamping variant (src/unnamed/part_002
lines 344-370): apply gravity to the vertical velocity, advance the position
by velocity * delta_time, then on each axis clamp the position into
[MIN_XY + RADIUS, MAX_XY - RADIUS] and negate that velocity component
(without dampening) if the position left the range. -/
def update_position (p : Particle) (delta_time : ℚ) : Particle :=
  let vy1 := p.vy + GRAVITATIONAL_ACCELERATION * delta_time
  let px1 := p.px + p.vx * delta_time
  let py1 := p.py + vy1 * delta_time
  let xres : ℚ × ℚ :=
    if px1 < MIN_XY + RADIUS then (MIN_XY + RADIUS, -p.vx)
    else if px1 > MAX_XY - RADIUS then (MAX_XY - RADIUS, -p.vx)
    else (px1, p.vx)
  let yres : ℚ × ℚ :=
    if py1 < MIN_XY + RADIUS then (MIN_XY + RADIUS, -vy1)
    else if py1 > MAX_XY - RADIUS then (MAX_XY - RADIUS, -vy1)
    else (py1, vy1)
  { px := xres.1, py := yres.1, vx := xres.2, vy := yres.2 }

end ClampVariant

/-- Struct Particle of src/src/main.c lines 23-26 again, this time over the
reals, for the pairwise resolver (resolve_collision uses sqrtf, so its
embedding lives in the reals).  Field names as in the rational model. -/
structure ParticleR where
  px : ℝ
  py : ℝ
  vx : ℝ
  vy : ℝ

/-- Squared center distance of resolve_collision (src/src/main.c
lines 149-151). -/
def distance_sq (a b : ParticleR) : ℝ :=
  (b.px - a.px) * (b.px - a.px) + (b.py - a.py) * (b.py - a.py)

/-- Minimum center distance of resolve_collision (src/src/main.c line 152):
two radii. -/
def min_distance : ℝ := 2 * (RADIUS : ℝ)

/-- Collision geometry of resolve_collision (src/src/main.c lines 149-165):
the center-difference vector and the center distance sqrt(distance_sq),
with the degenerate-case substitution of lines 161-165 (distance below
0.0001 replaced by the arbitrary push (0.1, 0) at distance 0.1).  Returns
(delta_x, delta_y, distance). -/
noncomputable def collisionGeom (a b : ParticleR) : ℝ × ℝ × ℝ :=
  let delta_x := b.px - a.px
  let delta_y := b.py - a.py
  let distance := Real.sqrt (distance_sq a b)
  if distance < 1/10000 then (1/10, 0, 1/10) else (delta_x, delta_y, distance)

/-- Normalized collision vector, x component (src/src/main.c line 168). -/
noncomputable def normalX (a b : ParticleR) : ℝ :=
  (collisionGeom a b).1 / (collisionGeom a b).2.2

/-- Normalized collision vector, y component (src/src/main.c line 169). -/
noncomputable def normalY (a b : ParticleR) : ℝ :=
  (collisionGeom a b).2.1 / (collisionGeom a b).2.2

/-- Relative velocity projected onto the collision normal
(src/src/main.c lines 172-176). -/
noncomputable def velocity_along_normal (a b : ParticleR) : ℝ :=
  (b.vx - a.vx) * normalX a b + (b.vy - a.vy) * normalY a b

open Classical in
/-- Function resolve_collision of src/src/main.c lines 148-202: early
return when the squared center distance is at least (2*RADIUS)^2; early
return when the relative velocity along the collision normal is strictly
positive (particles separating); otherwise apply the equal-mass impulse
(restitution DAMPENING, half to each particle, opposite directions along
the normal) and the fractional positional correction (percent 0.2 of the
penetration beyond the slop 0.01, half to each particle, opposite
directions along the normal).  Returns the updated pair (a, b). -/
noncomputable def resolve_collision (a b : ParticleR) : ParticleR × ParticleR :=
  if distance_sq a b ≥ min_distance * min_distance then (a, b)
  else
    let distance := (collisionGeom a b).2.2
    let nx := normalX a b
    let ny := normalY a b
    if velocity_along_normal a b > 0 then (a, b)
    else
      let restitution : ℝ := (DAMPENING : ℝ)
      let impulse := -(1 + restitution) * velocity_along_normal a b / 2
      let penetration := min_distance - distance
      let percent : ℝ := 2/10
      let slop : ℝ := 1/100
      let correction := max (penetration - slop) 0 / 2 * percent
      (⟨a.px - correction * nx, a.py - correction * ny,
        a.vx - impulse * nx, a.vy - impulse * ny⟩,
       ⟨b.px + correction * nx, b.py + correction * ny,
        b.vx + impulse * nx, b.vy + impulse * ny⟩)

/-- The particle and remaining-time components of stepLoopCount agree with
stepLoop. -/
lemma stepLoopCount_fst : ∀ (n : Nat) (p : Particle) (r : ℚ),
    (stepLoopCount n p r).1 = stepLoop n p r
  | 0, p, r => rfl
  | Nat.succ n, p, r => by
      unfold stepLoopCount stepLoop
      split_ifs with h
      · exact stepLoopCount_fst n _ _
      · rfl

/-- The iteration count of stepLoopCount never exceeds the fuel. -/
lemma stepLoopCount_le : ∀ (n : Nat) (p : Particle) (r : ℚ),
    (stepLoopCount n p r).2 ≤ n
  | 0, _, _ => le_refl 0
  | Nat.succ n, p, r => by
      unfold stepLoopCount
      split_ifs with h
      · exact Nat.succ_le_succ (stepLoopCount_le n _ _)
      · exact Nat.zero_le _

/-- When the remaining time is not positive the loop body never runs. -/
lemma stepLoop_nonpos (n : Nat) (p : Particle) (r : ℚ) (h : r ≤ 0) :
    stepLoop n p r = p := by
  cases n with
  | zero => rfl
  | succ n => unfold stepLoop; rw [if_neg (not_lt.mpr h)]

/-- C5. The sub-step loop of update_position (src/src/main.c lines 66-136)
executes at most MAX_ITERATIONS = 5 iterations and terminates (the model is
structurally recursive on the iteration budget); it stops as soon as the
remaining time is no longer positive, and when the budget is exhausted first
the particle is returned as is: the leftover remaining time is dropped and
the position is not advanced by it. -/
theorem c5_loop_cap (p : Particle) (r : ℚ) :
    MAX_ITERATIONS = 5
    ∧ (stepLoopCount MAX_ITERATIONS p r).1 = stepLoop MAX_ITERATIONS p r
    ∧ (stepLoopCount MAX_ITERATIONS p r).2 ≤ MAX_ITERATIONS
    ∧ (r ≤ 0 → stepLoop MAX_ITERATIONS p r = p)
    ∧ stepLoop 0 p r = p
    ∧ update_position p r =
        stepLoop MAX_ITERATIONS
          { p with vy := p.vy + GRAVITATIONAL_ACCELERATION * r } r :=
  ⟨rfl, stepLoopCount_fst _ p r, stepLoopCount_le _ p r,
   fun h => stepLoop_nonpos _ p r h, rfl, rfl⟩

/-- Witness for C5 at the particle (600, 400, 0, 0) with remaining time 0. -/
theorem c5_loop_cap_witness :
    (stepLoopCount MAX_ITERATIONS ⟨600, 400, 0, 0⟩ 0).2 ≤ MAX_ITERATIONS
    ∧ stepLoop MAX_ITERATIONS ⟨600, 400, 0, 0⟩ 0 = ⟨600, 400, 0, 0⟩ :=
  ⟨(c5_loop_cap ⟨600, 400, 0, 0⟩ 0).2.2.1,
   (c5_loop_cap ⟨600, 400, 0, 0⟩ 0).2.2.2.1 (le_refl 0)⟩

/-- C7. In the clamping boundary variant (src/unnamed/part_002 lines
344-370, extent 800 by 800, radius 10), a particle at (795, 400) with
velocity (50, 0) stepped once with delta_time 1 ends with x position
exactly 790 = MAX_XY - RADIUS and x velocity exactly -50 (negated, no
dampening factor in this variant). -/
theorem c7_clamp_scenario :
    (ClampVariant.update_position ⟨795, 400, 50, 0⟩ 1).px = 790
    ∧ (ClampVariant.update_position ⟨795, 400, 50, 0⟩ 1).vx = -50 := by
  norm_num [ClampVariant.update_position, ClampVariant.MIN_XY,
    ClampVariant.MAX_XY, ClampVariant.RADIUS,
    ClampVariant.GRAVITATIONAL_ACCELERATION]

/-- C4, counterexample. At the particle (1090, 690, 200, 200) with
remaining time 1, both axes reach their boundary at the same sub-step time
tx = ty = 1/2 (a corner hit) and a collision is resolved this sub-step
(the remaining time drops to 1/2), yet the x velocity is left unchanged at
200 while the y velocity is the one negated and dampened to -180: the code
tests tx < ty strictly (src/src/main.c line 130), so y, not x, wins ties. -/
theorem c4_counterexample :
    timeToImpactX ⟨1090, 690, 200, 200⟩ 1 = some (1/2)
    ∧ timeToImpactY ⟨1090, 690, 200, 200⟩ 1 = some (1/2)
    ∧ (substep ⟨1090, 690, 200, 200⟩ 1).2 = 1/2
    ∧ (substep ⟨1090, 690, 200, 200⟩ 1).1.vx = 200
    ∧ (substep ⟨1090, 690, 200, 200⟩ 1).1.vy = -180 := by
  norm_num [substep, timeToImpactX, timeToImpactY, timeToImpact1D, fminO,
    ltO, RADIUS, WINDOW_WIDTH, WINDOW_HEIGHT, DAMPENING]

/-- C4, amended. In the continuous-collision boundary stepper, when a
sub-step has equal times-to-impact on both axes (tx = ty, a corner hit)
and a collision occurs this sub-step (t not exceeding the remaining time),
the y velocity component is the one negated and dampened and the x
component is left unchanged: y wins ties against x, because the code
branches on the strict comparison tx < ty. -/
theorem c4_tie_negates_y (p : Particle) (r t0 : ℚ)
    (hx : timeToImpactX p r = some t0) (hy : timeToImpactY p r = some t0)
    (hc : t0 ≤ r) :
    (substep p r).1.vx = p.vx
    ∧ (substep p r).1.vy = p.vy * (-DAMPENING) := by
  unfold substep
  rw [hx, hy]
  simp only [fminO, min_self, ltO, decide_eq_true_eq]
  rw [if_neg (not_lt.mpr hc)]
  simp

/-- Witness for C4 amended at the corner-hit input (1090, 690, 200, 200)
with remaining time 1 and tie time 1/2. -/
theorem c4_tie_negates_y_witness :
    (substep ⟨1090, 690, 200, 200⟩ 1).1.vx = 200
    ∧ (substep ⟨1090, 690, 200, 200⟩ 1).1.vy = 200 * (-DAMPENING) :=
  c4_tie_negates_y ⟨1090, 690, 200, 200⟩ 1 (1/2)
    (by norm_num [timeToImpactX, timeToImpact1D, RADIUS, WINDOW_WIDTH])
    (by norm_num [timeToImpactY, timeToImpact1D, RADIUS, WINDOW_HEIGHT])
    (by norm_num)

/-- With zero x velocity the x time-to-impact stays at the infinity
sentinel: the division by the x velocity is never reached. -/
lemma timeToImpactX_of_vx0 (p : Particle) (r : ℚ) (h : p.vx = 0) :
    timeToImpactX p r = none := by
  simp [timeToImpactX, timeToImpact1D, h]

/-- With zero y velocity the y time-to-impact stays at the infinity
sentinel: the division by the y velocity is never reached. -/
lemma timeToImpactY_of_vy0 (p : Particle) (r : ℚ) (h : p.vy = 0) :
    timeToImpactY p r = none := by
  simp [timeToImpactY, timeToImpact1D, h]

/-- One sub-step with zero x velocity never bounces on x and never moves
in x. -/
lemma substep_vx0 (p : Particle) (r : ℚ) (h : p.vx = 0) :
    (substep p r).1.vx = 0 ∧ (substep p r).1.px = p.px := by
  unfold substep
  rw [timeToImpactX_of_vx0 p r h]
  cases hty : timeToImpactY p r with
  | none => simp [fminO, h]
  | some a =>
      simp only [fminO, ltO]
      split_ifs <;> simp [h]

/-- One sub-step with zero y velocity never bounces on y and never moves
in y. -/
lemma substep_vy0 (p : Particle) (r : ℚ) (h : p.vy = 0) :
    (substep p r).1.vy = 0 ∧ (substep p r).1.py = p.py := by
  unfold substep
  rw [timeToImpactY_of_vy0 p r h]
  cases htx : timeToImpactX p r with
  | none => simp [fminO, h]
  | some a =>
      simp only [fminO, ltO]
      split_ifs <;> simp [h]

/-- The sub-step loop with zero x velocity keeps the x velocity zero and
the x position fixed, for any fuel. -/
lemma stepLoop_vx0 : ∀ (n : Nat) (p : Particle) (r : ℚ), p.vx = 0 →
    (stepLoop n p r).vx = 0 ∧ (stepLoop n p r).px = p.px
  | 0, p, r, h => ⟨h, rfl⟩
  | Nat.succ n, p, r, h => by
      unfold stepLoop
      split_ifs with hr
      · obtain ⟨h1, h2⟩ := substep_vx0 p r h
        obtain ⟨h3, h4⟩ := stepLoop_vx0 n (substep p r).1 (substep p r).2 h1
        exact ⟨h3, h4.trans h2⟩
      · exact ⟨h, rfl⟩

/-- C9. In the continuous-collision boundary stepper, a zero velocity
component on an axis never produces a boundary hit on that axis during the
call: the time-to-impact of that axis stays at the infinity sentinel (the
division by the zero velocity is never executed), the component is never
negated, and the position on that axis never moves.  Stated per sub-step
for both axes, and for the whole update_position call on the x axis (the
x velocity is untouched by the once-per-call gravity update of line 64). -/
theorem c9_zero_velocity_axis :
    (∀ (p : Particle) (r : ℚ), p.vx = 0 →
      timeToImpactX p r = none
      ∧ (substep p r).1.vx = 0 ∧ (substep p r).1.px = p.px)
    ∧ (∀ (p : Particle) (r : ℚ), p.vy = 0 →
      timeToImpactY p r = none
      ∧ (substep p r).1.vy = 0 ∧ (substep p r).1.py = p.py)
    ∧ (∀ (p : Particle) (dt : ℚ), p.vx = 0 →
      (update_position p dt).vx = 0 ∧ (update_position p dt).px = p.px) :=
  ⟨fun p r h => ⟨timeToImpactX_of_vx0 p r h, (substep_vx0 p r h).1,
      (substep_vx0 p r h).2⟩,
   fun p r h => ⟨timeToImpactY_of_vy0 p r h, (substep_vy0 p r h).1,
      (substep_vy0 p r h).2⟩,
   fun p dt h => stepLoop_vx0 MAX_ITERATIONS _ dt h⟩

/-- Witness for C9 at the particles (600, 400, 0, 7) and (600, 400, 7, 0)
with remaining time 1 and delta_time 2. -/
theorem c9_zero_velocity_axis_witness :
    timeToImpactX ⟨600, 400, 0, 7⟩ 1 = none
    ∧ timeToImpactY ⟨600, 400, 7, 0⟩ 1 = none
    ∧ (update_position ⟨600, 400, 0, 7⟩ 2).vx = 0
    ∧ (update_position ⟨600, 400, 0, 7⟩ 2).px = 600 :=
  ⟨(c9_zero_velocity_axis.1 ⟨600, 400, 0, 7⟩ 1 rfl).1,
   (c9_zero_velocity_axis.2.1 ⟨600, 400, 7, 0⟩ 1 rfl).1,
   (c9_zero_velocity_axis.2.2 ⟨600, 400, 0, 7⟩ 2 rfl).1,
   (c9_zero_velocity_axis.2.2 ⟨600, 400, 0, 7⟩ 2 rfl).2⟩

/-- A flagged time-to-impact is nonnegative when the position starts inside
the legal range of its axis. -/
lemma timeToImpact1D_nonneg {lo hi pos v rem t0 : ℚ} (hlo : lo ≤ pos)
    (hhi : pos ≤ hi) (h : timeToImpact1D lo hi pos v rem = some t0) :
    0 ≤ t0 := by
  unfold timeToImpact1D at h
  split_ifs at h with h1 h2 h3 h4
  · rw [Option.some.injEq] at h
    subst h
    exact div_nonneg (by linarith) (le_of_lt h1)
  · rw [Option.some.injEq] at h
    subst h
    rw [div_nonneg_iff]
    right
    exact ⟨by linarith, le_of_lt h3⟩

/-- A flagged time-to-impact is strictly below the remaining time: the
tentative position crossed the boundary, so the impact happens before the
end of the sub-step. -/
lemma timeToImpact1D_lt_rem {lo hi pos v rem t0 : ℚ}
    (h : timeToImpact1D lo hi pos v rem = some t0) : t0 < rem := by
  unfold timeToImpact1D at h
  split_ifs at h with h1 h2 h3 h4
  · rw [Option.some.injEq] at h
    subst h
    rw [div_lt_iff h1]
    nlinarith
  · rw [Option.some.injEq] at h
    subst h
    rw [div_lt_iff_of_neg h3]
    nlinarith

/-- Advancing an in-range axis position by v * s keeps it in range, as
long as s is nonnegative, does not exceed the sub-step time, and does not
exceed any flagged time-to-impact of that axis. -/
lemma move1D_bounds {lo hi pos v rem s : ℚ} (hlo : lo ≤ pos)
    (hhi : pos ≤ hi) (hs0 : 0 ≤ s) (hsr : s ≤ rem)
    (hub : ∀ t0, timeToImpact1D lo hi pos v rem = some t0 → s ≤ t0) :
    lo ≤ pos + v * s ∧ pos + v * s ≤ hi := by
  rcases lt_trichotomy v 0 with hv | hv | hv
  · constructor
    · by_cases hcross : pos + v * rem < lo
      · have hsome : timeToImpact1D lo hi pos v rem = some ((lo - pos) / v) := by
          unfold timeToImpact1D
          rw [if_neg (by linarith : ¬ v > 0), if_pos hv, if_pos hcross]
        have h := (le_div_iff_of_neg hv).mp (hub _ hsome)
        nlinarith
      · push_neg at hcross
        nlinarith
    · nlinarith
  · subst hv
    constructor <;> nlinarith
  · constructor
    · nlinarith
    · by_cases hcross : pos + v * rem > hi
      · have hsome : timeToImpact1D lo hi pos v rem = some ((hi - pos) / v) := by
          unfold timeToImpact1D
          rw [if_pos hv, if_pos hcross]
        have h := (le_div_iff hv).mp (hub _ hsome)
        nlinarith
      · push_neg at hcross
        nlinarith

/-- An unflagged axis imposes no impact-time upper bound. -/
lemma hub_of_none {lo hi pos v rem s : ℚ}
    (h : timeToImpact1D lo hi pos v rem = none) :
    ∀ t0, timeToImpact1D lo hi pos v rem = some t0 → s ≤ t0 := by
  intro t0 ht
  rw [h] at ht
  exact absurd ht (by simp)

/-- A flagged axis bounds s as soon as s is below the flagged time. -/
lemma hub_of_some {lo hi pos v rem s a : ℚ}
    (h : timeToImpact1D lo hi pos v rem = some a) (hs : s ≤ a) :
    ∀ t0, timeToImpact1D lo hi pos v rem = some t0 → s ≤ t0 := by
  intro t0 ht
  rw [h, Option.some.injEq] at ht
  rwa [← ht]

/-- One sub-step of update_position keeps a particle inside the legal
region: the sub-step advances each axis either to the tentative position
(already checked not to cross) or exactly to the earliest flagged impact
time, which stops at or before the boundary. -/
lemma substep_inBounds {p : Particle} {r : ℚ} (h : inBounds p)
    (hr : 0 ≤ r) : inBounds (substep p r).1 := by
  obtain ⟨⟨hx1, hx2⟩, hy1, hy2⟩ := h
  unfold substep
  cases htx : timeToImpactX p r with
  | none =>
    cases hty : timeToImpactY p r with
    | none =>
      exact ⟨move1D_bounds hx1 hx2 hr (le_refl r) (hub_of_none htx),
             move1D_bounds hy1 hy2 hr (le_refl r) (hub_of_none hty)⟩
    | some b =>
      have hb0 : 0 ≤ b := timeToImpact1D_nonneg hy1 hy2 hty
      simp only [fminO]
      split_ifs with hgt hlt
      · exact ⟨move1D_bounds hx1 hx2 hr (le_refl r) (hub_of_none htx),
               move1D_bounds hy1 hy2 hr (le_refl r)
                 (hub_of_some hty (le_of_lt hgt))⟩
      all_goals
        exact ⟨move1D_bounds hx1 hx2 hb0 (not_lt.mp hgt) (hub_of_none htx),
               move1D_bounds hy1 hy2 hb0 (not_lt.mp hgt)
                 (hub_of_some hty (le_refl b))⟩
  | some a =>
    have ha0 : 0 ≤ a := timeToImpact1D_nonneg hx1 hx2 htx
    cases hty : timeToImpactY p r with
    | none =>
      simp only [fminO]
      split_ifs with hgt hlt
      · exact ⟨move1D_bounds hx1 hx2 hr (le_refl r)
                 (hub_of_some htx (le_of_lt hgt)),
               move1D_bounds hy1 hy2 hr (le_refl r) (hub_of_none hty)⟩
      all_goals
        exact ⟨move1D_bounds hx1 hx2 ha0 (not_lt.mp hgt)
                 (hub_of_some htx (le_refl a)),
               move1D_bounds hy1 hy2 ha0 (not_lt.mp hgt) (hub_of_none hty)⟩
    | some b =>
      have hb0 : 0 ≤ b := timeToImpact1D_nonneg hy1 hy2 hty
      have hm0 : 0 ≤ min a b := le_min ha0 hb0
      simp only [fminO]
      split_ifs with hgt hlt
      · exact ⟨move1D_bounds hx1 hx2 hr (le_refl r)
                 (hub_of_some htx (le_trans (le_of_lt hgt) (min_le_left a b))),
               move1D_bounds hy1 hy2 hr (le_refl r)
                 (hub_of_some hty (le_trans (le_of_lt hgt) (min_le_right a b)))⟩
      all_goals
        exact ⟨move1D_bounds hx1 hx2 hm0 (not_lt.mp hgt)
                 (hub_of_some htx (min_le_left a b)),
               move1D_bounds hy1 hy2 hm0 (not_lt.mp hgt)
                 (hub_of_some hty (min_le_right a b))⟩

/-- The full sub-step loop keeps a particle inside the legal region. -/
lemma stepLoop_inBounds : ∀ (n : Nat) (p : Particle) (r : ℚ),
    inBounds p → inBounds (stepLoop n p r)
  | 0, _, _, h => h
  | Nat.succ n, p, r, h => by
      unfold stepLoop
      split_ifs with hr
      · exact stepLoop_inBounds n _ _ (substep_inBounds h (le_of_lt hr))
      · exact h

/-- C1, counterexample. The claim fails for a particle that starts outside
the legal region, which init_particle can produce: its x displacement is
rand() % WINDOW_WIDTH - RADIUS, which is -10 when rand() % WINDOW_WIDTH = 0,
and its velocity components are 0 when the corresponding rand() % 200 is
100.  Concretely, the particle at (0, 400) with velocity (0, -981) and
delta_time 1 (gravity brings the y velocity to exactly 0) is returned by
update_position at x position 0, which violates RADIUS <= x. -/
theorem c1_counterexample :
    (update_position ⟨0, 400, 0, -981⟩ 1).px = 0
    ∧ ¬ inBounds (update_position ⟨0, 400, 0, -981⟩ 1) := by
  have h : update_position ⟨0, 400, 0, -981⟩ 1 = ⟨0, 400, 0, 0⟩ := by
    norm_num [update_position, stepLoop, substep, timeToImpactX,
      timeToImpactY, timeToImpact1D, fminO, ltO, GRAVITATIONAL_ACCELERATION,
      RADIUS, WINDOW_WIDTH, WINDOW_HEIGHT, DAMPENING, MAX_ITERATIONS]
  rw [h]
  norm_num [inBounds, inBoundsX, RADIUS]

/-- C1, amended. For every particle whose position is inside the legal
region (RADIUS <= x <= WINDOW_WIDTH - RADIUS and RADIUS <= y <=
WINDOW_HEIGHT - RADIUS) and every frame time, the position after
update_position is still inside the legal region: a particle never leaves
it, and the iteration cap only drops leftover time, never placing the
particle outside.  (Unconditionally, for particles already outside, the
stepper does not clamp them back, as the counterexample shows.) -/
theorem c1_stays_in_bounds (p : Particle) (dt : ℚ) (h : inBounds p) :
    inBounds (update_position p dt) := by
  unfold update_position
  apply stepLoop_inBounds
  obtain ⟨hx, hy⟩ := h
  exact ⟨hx, hy⟩

/-- Witness for C1 amended at the in-bounds particle (600, 400, 300, -500)
with delta_time 1. -/
theorem c1_stays_in_bounds_witness :
    inBounds (⟨600, 400, 300, -500⟩ : Particle)
    ∧ inBounds (update_position ⟨600, 400, 300, -500⟩ 1) :=
  ⟨by norm_num [inBounds, inBoundsX, inBoundsY, RADIUS, WINDOW_WIDTH,
      WINDOW_HEIGHT],
   c1_stays_in_bounds ⟨600, 400, 300, -500⟩ 1
     (by norm_num [inBounds, inBoundsX, inBoundsY, RADIUS, WINDOW_WIDTH,
        WINDOW_HEIGHT])⟩

/-- Each sub-step leaves each velocity component unchanged, or reflects it
scaled by the dampening factor, so its magnitude never grows beyond
DAMPENING times the old magnitude. -/
lemma substep_dampens (p : Particle) (r : ℚ) :
    ((substep p r).1.vx = p.vx ∨ |(substep p r).1.vx| ≤ DAMPENING * |p.vx|)
    ∧ ((substep p r).1.vy = p.vy ∨ |(substep p r).1.vy| ≤ DAMPENING * |p.vy|) := by
  have habs : ∀ v : ℚ, |v * -DAMPENING| ≤ DAMPENING * |v| := by
    intro v
    rw [abs_mul, abs_neg, abs_of_nonneg (by norm_num [DAMPENING] : (0:ℚ) ≤ DAMPENING),
      mul_comm]
  unfold substep
  cases htx : timeToImpactX p r with
  | none =>
    cases hty : timeToImpactY p r with
    | none =>
      simp only [fminO]
      exact ⟨Or.inl trivial, Or.inl trivial⟩
    | some b =>
      simp only [fminO]
      split_ifs
      · exact ⟨Or.inl rfl, Or.inl rfl⟩
      · exact ⟨Or.inr (habs _), Or.inl rfl⟩
      · exact ⟨Or.inl rfl, Or.inr (habs _)⟩
  | some a =>
    cases hty : timeToImpactY p r with
    | none =>
      simp only [fminO]
      split_ifs
      · exact ⟨Or.inl rfl, Or.inl rfl⟩
      · exact ⟨Or.inr (habs _), Or.inl rfl⟩
      · exact ⟨Or.inl rfl, Or.inr (habs _)⟩
    | some b =>
      simp only [fminO]
      split_ifs
      · exact ⟨Or.inl rfl, Or.inl rfl⟩
      · exact ⟨Or.inr (habs _), Or.inl rfl⟩
      · exact ⟨Or.inl rfl, Or.inr (habs _)⟩

/-- The substituted center distance of collisionGeom is always strictly
positive: at least 0.0001 in the regular case, exactly 0.1 in the
degenerate case. -/
lemma collisionGeom_dist_pos (a b : ParticleR) : 0 < (collisionGeom a b).2.2 := by
  simp only [collisionGeom]
  split_ifs with h
  · norm_num
  · push_neg at h
    dsimp only
    calc (0:ℝ) < 1/10000 := by norm_num
    _ ≤ _ := h

/-- The substituted center-difference vector of collisionGeom has squared
norm equal to the squared substituted distance, in both the regular and
the degenerate branch. -/
lemma collisionGeom_sq (a b : ParticleR) :
    (collisionGeom a b).1 ^ 2 + (collisionGeom a b).2.1 ^ 2
      = (collisionGeom a b).2.2 ^ 2 := by
  simp only [collisionGeom]
  split_ifs with h
  · norm_num
  · dsimp only
    have hnn : 0 ≤ distance_sq a b :=
      add_nonneg (mul_self_nonneg _) (mul_self_nonneg _)
    rw [Real.sq_sqrt hnn]
    unfold distance_sq
    ring

/-- The collision normal is a unit vector. -/
lemma normal_unit (a b : ParticleR) :
    normalX a b ^ 2 + normalY a b ^ 2 = 1 := by
  have hpos := collisionGeom_dist_pos a b
  have hsq := collisionGeom_sq a b
  unfold normalX normalY
  rw [div_pow, div_pow, div_add_div_same, hsq]
  exact div_self (pow_ne_zero 2 (ne_of_gt hpos))

/-- C2. Bounded dampening at every collision.  Boundary bounce: in every
sub-step of update_position, each velocity component is either untouched
or reflected with magnitude exactly DAMPENING times the old one, hence
never amplified beyond the restitution scaling.  Pairwise resolution: for
particles that overlap and are not separating (the case resolve_collision
actually resolves), the post-collision relative velocity projected on the
collision normal has magnitude at most DAMPENING times the pre-collision
projection (it is exactly -DAMPENING times it). -/
theorem c2_restitution_bound :
    (∀ (p : Particle) (r : ℚ),
      ((substep p r).1.vx = p.vx ∨ |(substep p r).1.vx| ≤ DAMPENING * |p.vx|)
      ∧ ((substep p r).1.vy = p.vy ∨ |(substep p r).1.vy| ≤ DAMPENING * |p.vy|))
    ∧ (∀ a b : ParticleR,
      distance_sq a b < min_distance * min_distance →
      velocity_along_normal a b ≤ 0 →
      |((resolve_collision a b).2.vx - (resolve_collision a b).1.vx) * normalX a b
        + ((resolve_collision a b).2.vy - (resolve_collision a b).1.vy) * normalY a b|
        ≤ (DAMPENING : ℝ) * |velocity_along_normal a b|) := by
  constructor
  · exact substep_dampens
  · intro a b h1 h2
    have hunit := normal_unit a b
    have he : (0:ℝ) ≤ (DAMPENING : ℝ) := by norm_num [DAMPENING]
    have key : ((resolve_collision a b).2.vx - (resolve_collision a b).1.vx)
          * normalX a b
        + ((resolve_collision a b).2.vy - (resolve_collision a b).1.vy)
          * normalY a b
        = -((DAMPENING : ℝ) * velocity_along_normal a b) := by
      simp only [resolve_collision]
      rw [if_neg (not_le.mpr h1), if_neg (not_lt.mpr h2)]
      dsimp only
      set nx := normalX a b with hnx
      set ny := normalY a b with hny
      set v0 := velocity_along_normal a b with hv0def
      have hv0 : v0 = (b.vx - a.vx) * nx + (b.vy - a.vy) * ny := rfl
      linear_combination
        (2 * (-(1 + (DAMPENING : ℝ)) * v0 / 2)) * hunit - hv0
    rw [key, abs_neg, abs_mul, abs_of_nonneg he]

/-- Square root of 25, needed to evaluate the resolver on the spec's
overlap scenario. -/
lemma sqrt_25 : Real.sqrt 25 = 5 := by
  rw [show (25:ℝ) = 5 ^ 2 by norm_num, Real.sqrt_sq (by norm_num : (0:ℝ) ≤ 5)]

/-- Squared center distance of the overlap scenario (100,100) vs (105,100),
for any velocities. -/
lemma distance_sq_scenario (avx avy bvx bvy : ℝ) :
    distance_sq ⟨100, 100, avx, avy⟩ ⟨105, 100, bvx, bvy⟩ = 25 := by
  unfold distance_sq
  norm_num

/-- Collision geometry of the overlap scenario: difference vector (5, 0)
at distance 5 (the degenerate branch is not taken). -/
lemma collisionGeom_scenario (avx avy bvx bvy : ℝ) :
    collisionGeom ⟨100, 100, avx, avy⟩ ⟨105, 100, bvx, bvy⟩ = (5, 0, 5) := by
  simp only [collisionGeom]
  rw [distance_sq_scenario, sqrt_25, if_neg (by norm_num)]
  norm_num

/-- Collision normal of the overlap scenario is the x unit vector. -/
lemma normalX_scenario (avx avy bvx bvy : ℝ) :
    normalX ⟨100, 100, avx, avy⟩ ⟨105, 100, bvx, bvy⟩ = 1 := by
  unfold normalX
  rw [collisionGeom_scenario]
  norm_num

/-- Collision normal of the overlap scenario has no y component. -/
lemma normalY_scenario (avx avy bvx bvy : ℝ) :
    normalY ⟨100, 100, avx, avy⟩ ⟨105, 100, bvx, bvy⟩ = 0 := by
  unfold normalY
  rw [collisionGeom_scenario]
  norm_num

/-- Relative velocity along the normal in the overlap scenario is the
difference of x velocities. -/
lemma van_scenario (avx avy bvx bvy : ℝ) :
    velocity_along_normal ⟨100, 100, avx, avy⟩ ⟨105, 100, bvx, bvy⟩
      = bvx - avx := by
  unfold velocity_along_normal
  rw [normalX_scenario, normalY_scenario]
  ring

/-- Witness for C2: the boundary half at the corner-hit sub-step
(1090, 690, 200, 200) with remaining time 1, and the pairwise half at the
overlapping pair (100, 100) with velocity (1, 0) against (105, 100) at
rest, whose relative velocity along the normal is -1. -/
theorem c2_restitution_bound_witness :
    (((substep ⟨1090, 690, 200, 200⟩ 1).1.vx = (200:ℚ)
        ∨ |(substep ⟨1090, 690, 200, 200⟩ 1).1.vx| ≤ DAMPENING * |(200:ℚ)|)
      ∧ ((substep ⟨1090, 690, 200, 200⟩ 1).1.vy = (200:ℚ)
        ∨ |(substep ⟨1090, 690, 200, 200⟩ 1).1.vy| ≤ DAMPENING * |(200:ℚ)|))
    ∧ (distance_sq ⟨100, 100, 1, 0⟩ ⟨105, 100, 0, 0⟩
        < min_distance * min_distance
      ∧ velocity_along_normal ⟨100, 100, 1, 0⟩ ⟨105, 100, 0, 0⟩ ≤ 0
      ∧ |((resolve_collision ⟨100, 100, 1, 0⟩ ⟨105, 100, 0, 0⟩).2.vx
            - (resolve_collision ⟨100, 100, 1, 0⟩ ⟨105, 100, 0, 0⟩).1.vx)
            * normalX ⟨100, 100, 1, 0⟩ ⟨105, 100, 0, 0⟩
          + ((resolve_collision ⟨100, 100, 1, 0⟩ ⟨105, 100, 0, 0⟩).2.vy
            - (resolve_collision ⟨100, 100, 1, 0⟩ ⟨105, 100, 0, 0⟩).1.vy)
            * normalY ⟨100, 100, 1, 0⟩ ⟨105, 100, 0, 0⟩|
          ≤ (DAMPENING : ℝ)
            * |velocity_along_normal ⟨100, 100, 1, 0⟩ ⟨105, 100, 0, 0⟩|) := by
  have hd : distance_sq (⟨100, 100, 1, 0⟩ : ParticleR) ⟨105, 100, 0, 0⟩
      < min_distance * min_distance := by
    rw [distance_sq_scenario]
    norm_num [min_distance, RADIUS]
  have hv : velocity_along_normal (⟨100, 100, 1, 0⟩ : ParticleR)
      ⟨105, 100, 0, 0⟩ ≤ 0 := by
    rw [van_scenario]
    norm_num
  exact ⟨c2_restitution_bound.1 ⟨1090, 690, 200, 200⟩ 1,
    hd, hv, c2_restitution_bound.2 ⟨100, 100, 1, 0⟩ ⟨105, 100, 0, 0⟩ hd hv⟩

/-- C8. Whenever the squared center distance is at least (2*RADIUS)^2, the
early return of src/src/main.c line 156 fires and resolve_collision leaves
both particles' positions and velocities completely unchanged. -/
theorem c8_no_overlap_noop (a b : ParticleR)
    (h : distance_sq a b ≥ min_distance * min_distance) :
    resolve_collision a b = (a, b) := by
  simp only [resolve_collision]
  rw [if_pos h]

/-- Witness for C8 at the distant pair (0,0) and (100,0). -/
theorem c8_no_overlap_noop_witness :
    distance_sq ⟨0, 0, 0, 0⟩ ⟨100, 0, 0, 0⟩ ≥ min_distance * min_distance
    ∧ resolve_collision ⟨0, 0, 0, 0⟩ ⟨100, 0, 0, 0⟩
        = (⟨0, 0, 0, 0⟩, ⟨100, 0, 0, 0⟩) := by
  have h : distance_sq (⟨0, 0, 0, 0⟩ : ParticleR) ⟨100, 0, 0, 0⟩
      ≥ min_distance * min_distance := by
    unfold distance_sq
    norm_num [min_distance, RADIUS]
  exact ⟨h, c8_no_overlap_noop _ _ h⟩

/-- C10. For every pair of particles, resolve_collision conserves the
vector sum of the two velocities (the equal-mass impulses of lines 187-190
are equal and opposite) and the sum, hence the midpoint, of the two
positions (the positional corrections of lines 198-201 are equal and
opposite).  This holds in the early-return branches trivially. -/
theorem c10_momentum_and_midpoint (a b : ParticleR) :
    (resolve_collision a b).1.vx + (resolve_collision a b).2.vx = a.vx + b.vx
    ∧ (resolve_collision a b).1.vy + (resolve_collision a b).2.vy = a.vy + b.vy
    ∧ (resolve_collision a b).1.px + (resolve_collision a b).2.px = a.px + b.px
    ∧ (resolve_collision a b).1.py + (resolve_collision a b).2.py = a.py + b.py := by
  simp only [resolve_collision]
  split_ifs <;> refine ⟨?_, ?_, ?_, ?_⟩ <;> first | rfl | (dsimp only; ring)

/-- Full evaluation of resolve_collision on the spec scenario: two resting
particles at (100, 100) and (105, 100).  The impulse is zero (relative
velocity is zero) and the positional correction moves each particle by
0.2 * (15 - 0.01) / 2 = 1.499 along the x axis, in opposite directions. -/
lemma resolve_eval_overlap :
    resolve_collision ⟨100, 100, 0, 0⟩ ⟨105, 100, 0, 0⟩
      = (⟨98501/1000, 100, 0, 0⟩, ⟨106499/1000, 100, 0, 0⟩) := by
  have hcond : ¬ (distance_sq (⟨100, 100, 0, 0⟩ : ParticleR) ⟨105, 100, 0, 0⟩
      ≥ min_distance * min_distance) := by
    rw [distance_sq_scenario]
    norm_num [min_distance, RADIUS]
  have hv : ¬ (velocity_along_normal (⟨100, 100, 0, 0⟩ : ParticleR)
      ⟨105, 100, 0, 0⟩ > 0) := by
    rw [van_scenario]
    norm_num
  simp only [resolve_collision]
  rw [if_neg hcond, if_neg hv]
  rw [normalX_scenario, normalY_scenario, collisionGeom_scenario, van_scenario]
  have hmin : min_distance = 20 := by norm_num [min_distance, RADIUS]
  rw [hmin]
  norm_num [Prod.ext_iff, ParticleR.mk.injEq, DAMPENING]

/-- C3, counterexample. The claim requires zero mutation whenever the
relative velocity along the normal is greater than or equal to 0, but the
code skips only on the strict comparison velocity_along_normal > 0
(src/src/main.c line 179).  For the resting overlapping pair (100, 100)
and (105, 100) the projection is exactly 0, the resolver proceeds, and
although the zero impulse leaves the velocities unchanged, the positional
correction moves particle a from x = 100 to x = 98.501. -/
theorem c3_counterexample :
    0 ≤ velocity_along_normal ⟨100, 100, 0, 0⟩ ⟨105, 100, 0, 0⟩
    ∧ (resolve_collision ⟨100, 100, 0, 0⟩ ⟨105, 100, 0, 0⟩).1.px ≠ 100 := by
  constructor
  · rw [van_scenario]
    norm_num
  · rw [resolve_eval_overlap]
    norm_num

/-- C3, amended. For every pair of particles whose relative velocity
projected onto the collision normal is strictly positive (> 0, strictly
separating), resolve_collision leaves both particles' positions and
velocities completely unchanged.  At a projection of exactly 0 the
velocities are unchanged (zero impulse) but the positional correction can
still move overlapping particles, as the counterexample shows. -/
theorem c3_separating_noop (a b : ParticleR)
    (h : 0 < velocity_along_normal a b) :
    resolve_collision a b = (a, b) := by
  simp only [resolve_collision]
  split_ifs with h1
  · rfl
  · rfl

/-- Witness for C3 amended: particle a at (100, 100) moving away with
velocity (-1, 0) from b at (105, 100) at rest; the projection is 1 > 0 and
the resolver returns both particles unchanged. -/
theorem c3_separating_noop_witness :
    0 < velocity_along_normal ⟨100, 100, -1, 0⟩ ⟨105, 100, 0, 0⟩
    ∧ resolve_collision ⟨100, 100, -1, 0⟩ ⟨105, 100, 0, 0⟩
        = (⟨100, 100, -1, 0⟩, ⟨105, 100, 0, 0⟩) := by
  have h : 0 < velocity_along_normal (⟨100, 100, -1, 0⟩ : ParticleR)
      ⟨105, 100, 0, 0⟩ := by
    rw [van_scenario]
    norm_num
  exact ⟨h, c3_separating_noop _ _ h⟩

/-- C6, counterexample. On the spec scenario (resting particles at
(100, 100) and (105, 100), radius 10), the resolver does displace the
particles apart along the x axis only and symmetrically, but the final
center distance is 7.998, far below the claimed 20 - slop = 19.99: the
positional correction is fractional by design (percent = 0.2 of the
penetration beyond the slop per call, src/src/main.c lines 193-196), so a
single call does not restore separation. -/
theorem c6_counterexample :
    Real.sqrt (distance_sq
        (resolve_collision ⟨100, 100, 0, 0⟩ ⟨105, 100, 0, 0⟩).1
        (resolve_collision ⟨100, 100, 0, 0⟩ ⟨105, 100, 0, 0⟩).2)
      = 7998/1000
    ∧ ¬ (2 * (RADIUS : ℝ) - 1/100 ≤ Real.sqrt (distance_sq
        (resolve_collision ⟨100, 100, 0, 0⟩ ⟨105, 100, 0, 0⟩).1
        (resolve_collision ⟨100, 100, 0, 0⟩ ⟨105, 100, 0, 0⟩).2)) := by
  have hd : Real.sqrt (distance_sq
      (resolve_collision ⟨100, 100, 0, 0⟩ ⟨105, 100, 0, 0⟩).1
      (resolve_collision ⟨100, 100, 0, 0⟩ ⟨105, 100, 0, 0⟩).2) = 7998/1000 := by
    rw [resolve_eval_overlap]
    have : distance_sq (⟨98501/1000, 100, 0, 0⟩ : ParticleR)
        ⟨106499/1000, 100, 0, 0⟩ = (7998/1000 : ℝ) ^ 2 := by
      unfold distance_sq
      norm_num
    rw [this, Real.sqrt_sq (by norm_num : (0:ℝ) ≤ 7998/1000)]
  refine ⟨hd, ?_⟩
  rw [hd]
  norm_num [RADIUS]

/-- C6, amended. On the spec scenario the resolver pushes the particles
apart along the x axis only (both y positions stay 100), with symmetric
equal-and-opposite displacements of 1.499 and unchanged zero velocities;
the distance between centers grows from 5 to exactly 7.998, which is
still below 2 * RADIUS - slop because the correction is deliberately
fractional (20 percent of the penetration beyond the slop per call). -/
theorem c6_fractional_correction :
    (resolve_collision ⟨100, 100, 0, 0⟩ ⟨105, 100, 0, 0⟩).1.py = 100
    ∧ (resolve_collision ⟨100, 100, 0, 0⟩ ⟨105, 100, 0, 0⟩).2.py = 100
    ∧ (resolve_collision ⟨100, 100, 0, 0⟩ ⟨105, 100, 0, 0⟩).1.px = 98501/1000
    ∧ (resolve_collision ⟨100, 100, 0, 0⟩ ⟨105, 100, 0, 0⟩).2.px = 106499/1000
    ∧ 100 - (resolve_collision ⟨100, 100, 0, 0⟩ ⟨105, 100, 0, 0⟩).1.px
        = (resolve_collision ⟨100, 100, 0, 0⟩ ⟨105, 100, 0, 0⟩).2.px - 105
    ∧ (resolve_collision ⟨100, 100, 0, 0⟩ ⟨105, 100, 0, 0⟩).1.vx = 0
    ∧ (resolve_collision ⟨100, 100, 0, 0⟩ ⟨105, 100, 0, 0⟩).1.vy = 0
    ∧ (resolve_collision ⟨100, 100, 0, 0⟩ ⟨105, 100, 0, 0⟩).2.vx = 0
    ∧ (resolve_collision ⟨100, 100, 0, 0⟩ ⟨105, 100, 0, 0⟩).2.vy = 0
    ∧ Real.sqrt (distance_sq
        (resolve_collision ⟨100, 100, 0, 0⟩ ⟨105, 100, 0, 0⟩).1
        (resolve_collision ⟨100, 100, 0, 0⟩ ⟨105, 100, 0, 0⟩).2)
      = 7998/1000 := by
  rw [resolve_eval_overlap]
  have : distance_sq (⟨98501/1000, 100, 0, 0⟩ : ParticleR)
      ⟨106499/1000, 100, 0, 0⟩ = (7998/1000 : ℝ) ^ 2 := by
    unfold distance_sq
    norm_num
  rw [this, Real.sqrt_sq (by norm_num : (0:ℝ) ≤ 7998/1000)]
  norm_num
